import Mathlib

/-!
Shallow embedding of the document lifecycle and tracking engine of the
government-document system (src/src/services/document_service.py,
src/src/services/tracking_service.py, src/src/models/document.py,
src/src/data_access/google_sheets.py, src/src/config/constants.py).

Conventions of the embedding:
- Python strings are Lean `String`; `s.startswith(p)` and `sub in s` are
  modelled on the underlying character lists (`pyStartsWith`, `pyContains`).
- Python `datetime` is a record of calendar date plus time-of-day down to
  microseconds; subtraction goes through a days-from-civil ordinal, so
  `(a - b).days` is floor division of the microsecond difference, exactly
  as `timedelta.days` behaves.
- Raised exceptions become `Except AppError`; the exception classes of
  src/src/utils/exceptions.py become constructors of `AppError` carrying the
  message string built at the raise site.
- The recursive thread builder is embedded with a fuel parameter; `none`
  marks fuel exhaustion, i.e. the Python recursion has not terminated within
  the given depth budget.
-/

namespace GovDoc

/-- Constant `BusinessRules.TRACKING_THRESHOLD_DAYS` from src/src/config/constants.py. -/
def TRACKING_THRESHOLD_DAYS : Int := 7

/-- Constant `BusinessRules.ID_PREFIX_GENERAL` from src/src/config/constants.py. -/
def ID_PREFIX_GENERAL : String := "金展詢"

/-- Constant `BusinessRules.ID_PREFIX_REPLY` from src/src/config/constants.py. -/
def ID_PREFIX_REPLY : String := "金展回"

/-- The `DocumentType` enum from src/src/config/constants.py. -/
inductive DocumentType where
  | OUTGOING
  | INCOMING
  | MEMO
  | LETTER
deriving DecidableEq

/-- The `OCRStatus` enum from src/src/config/constants.py. -/
inductive OCRStatus where
  | PENDING
  | COMPLETED
  | FAILED
  | SKIPPED
deriving DecidableEq

/-- Exception classes of src/src/utils/exceptions.py that the embedded code
raises, each carrying the message string of the raise site. -/
inductive AppError where
  | databaseConnectionError (msg : String)
  | recordNotFoundError (msg : String)
  | validationError (msg : String)
  | businessLogicError (msg : String)
deriving DecidableEq

/-- A calendar date, the `%Y-%m-%d` / `%Y%m%d` part of a Python `datetime`. -/
structure Date where
  year : Nat
  month : Nat
  day : Nat
deriving DecidableEq

/-- A Python `datetime`: calendar date plus time of day down to microseconds. -/
structure DateTime where
  date : Date
  hour : Nat
  minute : Nat
  second : Nat
  usec : Nat
deriving DecidableEq

/-- Microseconds elapsed since midnight of `t.date`. -/
def microOfDay (t : DateTime) : Int :=
  ((((t.hour * 60 + t.minute) * 60 + t.second) * 1000000 + t.usec : Nat) : Int)

/-- Day number of a proleptic-Gregorian civil date (days since 1970-01-01,
the standard days-from-civil computation).  Python's `datetime` subtraction
subtracts such ordinals, and the constant offset of the epoch cancels. -/
def daysFromCivil (y m d : Int) : Int :=
  let ys := if m ≤ 2 then y - 1 else y
  let era := ys.fdiv 400
  let yoe := ys - era * 400
  let mp := (m + 9).emod 12
  let doy := (153 * mp + 2).fdiv 5 + d - 1
  let doe := yoe * 365 + yoe.fdiv 4 - yoe.fdiv 100 + doy
  era * 146097 + doe - 719468

/-- Ordinal day number of a `Date`. -/
def Date.toOrdinal (d : Date) : Int :=
  daysFromCivil (d.year : Int) (d.month : Int) (d.day : Int)

/-- Chronological key of a `DateTime` in microseconds; Python `datetime`
comparison and subtraction order by exactly this quantity. -/
def dtTotalMicro (t : DateTime) : Int :=
  t.date.toOrdinal * 86400000000 + microOfDay t

/-- The microsecond content of the Python timedelta `a - b`. -/
def subMicro (a b : DateTime) : Int :=
  dtTotalMicro a - dtTotalMicro b

/-- Computes `(a - b).days`: Python `timedelta.days` is the floor of the difference
in days, i.e. floor division of the microsecond difference by a day. -/
def timedeltaDays (a b : DateTime) : Int :=
  (subMicro a b).fdiv 86400000000

/-- The decimal digit character of `n % 10`. -/
def digitChar (n : Nat) : Char :=
  Char.ofNat (48 + n % 10)

/-- Two-digit zero-padded rendering of `n` (`n ≤ 99`), as `%m`/`%d` print. -/
def num2 (n : Nat) : List Char :=
  [digitChar (n / 10), digitChar n]

/-- Four-digit zero-padded rendering of `n` (`n ≤ 9999`), as `%Y` prints;
Python `datetime` years never exceed 9999. -/
def num4 (n : Nat) : List Char :=
  [digitChar (n / 1000), digitChar (n / 100), digitChar (n / 10), digitChar n]

/-- Renders `date.strftime('%Y%m%d')` on the valid `datetime` range. -/
def fmtYYYYMMDD (t : DateTime) : String :=
  String.mk (num4 t.date.year ++ num2 t.date.month ++ num2 t.date.day)

/-- Renders `f"{n:0wd}"`: decimal rendering of `n` left-padded with zeros to width
`w`, never truncated. -/
def zpad (w : Nat) (n : Nat) : String :=
  String.mk (List.replicate (w - (Nat.repr n).length) '0' ++ (Nat.repr n).data)

/-- Python `s.startswith(p)`. -/
def pyStartsWith (s p : String) : Bool :=
  p.data.isPrefixOf s.data

/-- Python `sub in s` (substring containment). -/
def pyContains (sub s : String) : Bool :=
  decide ( List.IsInfix sub.data s.data)

/-- Python truthiness of an `Optional[str]`: `None` and `''` are falsy. -/
def strTruthy : Option String → Bool
  | none => false
  | some s => !(s == "")

/-- The `Document` dataclass of src/src/models/document.py. -/
structure Document where
  id : String
  date : DateTime
  type : DocumentType
  agency : String
  subject : String
  parent_id : Option String := none
  drive_file_id : Option String := none
  created_at : Option DateTime := none
  created_by : Option String := none
  ocr_status : OCRStatus := OCRStatus.PENDING
  ocr_text : Option String := none
  ocr_date : Option DateTime := none
deriving DecidableEq

/-- Function `DocumentService.generate_document_id` of
src/src/services/document_service.py, with the repository's `get_all()`
result passed in as `docs`. -/
def generateDocumentId (docs : List Document) (date : DateTime)
    (is_reply : Bool) (parent_id : Option String) : Except AppError String :=
  if is_reply && !strTruthy parent_id then
    Except.error (AppError.validationError "回覆案件必須提供父公文 ID")
  else
    let date_str := fmtYYYYMMDD date
    if is_reply then
      let reply_docs := docs.filter fun doc =>
        doc.parent_id == parent_id && pyStartsWith doc.id ID_PREFIX_REPLY
      Except.ok (ID_PREFIX_REPLY ++ zpad 2 (reply_docs.length + 1) ++ parent_id.getD "")
    else
      let same_day_docs := docs.filter fun doc =>
        fmtYYYYMMDD doc.date == date_str && pyStartsWith doc.id ID_PREFIX_GENERAL
      Except.ok (ID_PREFIX_GENERAL ++ date_str ++ zpad 3 (same_day_docs.length + 1))

/-- The root-document id formula in the words of the spec (§4.2/§8): the
sequence is `1 + count of existing ids whose id starts with
{GENERAL_PREFIX}{YYYYMMDD}`.  Kept separate from `generateDocumentId` so the
two can be compared. -/
def specNextRootId (docs : List Document) (date : DateTime) : String :=
  let date_str := fmtYYYYMMDD date
  let seq := 1 + (docs.filter fun doc =>
    pyStartsWith doc.id (ID_PREFIX_GENERAL ++ date_str)).length
  ID_PREFIX_GENERAL ++ date_str ++ zpad 3 seq

/-- The reply-document id formula in the words of the spec (§4.2/§8): the
sequence is `1 + count of existing ids that start with {REPLY_PREFIX} and
contain parent_id as a substring`. -/
def specNextReplyId (docs : List Document) (parent_id : String) : String :=
  let seq := 1 + (docs.filter fun doc =>
    pyStartsWith doc.id ID_PREFIX_REPLY && pyContains parent_id doc.id).length
  ID_PREFIX_REPLY ++ zpad 2 seq ++ parent_id

/-- The lookup `doc_dict = {doc.id: doc for doc in all_docs}` of
`get_conversation_thread`: a Python dict comprehension keeps the last
occurrence of a duplicated key, hence the search over the reversed list. -/
def dictFind (docs : List Document) (doc_id : String) : Option Document :=
  docs.reverse.find? (fun d => d.id == doc_id)

/-- Function `build_thread_recursive` inside
`DocumentService.get_conversation_thread` (src/src/services/document_service.py).
The Python function recurses with no cycle protection; `fuel` bounds the
recursion depth of the embedding and `none` means the budget was exhausted,
i.e. the Python call has not returned within that depth. -/
def buildThreadRec (docs : List Document) (fuel : Nat) (doc_id : String)
    (level : Nat) : Option (List (Document × Nat)) :=
  match fuel with
  | 0 => none
  | fuel + 1 =>
    match dictFind docs doc_id with
    | none => some []
    | some doc =>
      (docs.filter fun d => d.parent_id == some doc_id).foldlM
        (fun acc child => (buildThreadRec docs fuel child.id (level + 1)).map (acc ++ ·))
        [(doc, level)]

/-- Function `DocumentService.get_conversation_thread`: the recursion starts at the
root id with level 0. -/
def getConversationThread (docs : List Document) (fuel : Nat) (root_id : String) :
    Option (List (Document × Nat)) :=
  buildThreadRec docs fuel root_id 0

/-- Function `DocumentService.search_documents` of
src/src/services/document_service.py, with the repository's `get_all()`
result passed in as `docs`.  The guards mirror Python truthiness: a `None`
or empty keyword/agency skips the corresponding branch. -/
def searchDocuments (docs : List Document) (keyword : Option String)
    (date_start date_end : Option DateTime) (doc_type : Option DocumentType)
    (agency : Option String) : Except AppError (List Document) :=
  if strTruthy keyword && decide ((keyword.getD "").length < 2) then
    Except.error (AppError.validationError "關鍵字至少需要 2 個字")
  else
    let r1 := if strTruthy keyword then
        docs.filter (fun doc => pyContains (keyword.getD "") doc.subject)
      else docs
    let r2 := match date_start with
      | some t => r1.filter (fun doc => decide (dtTotalMicro t ≤ dtTotalMicro doc.date))
      | none => r1
    let r3 := match date_end with
      | some t => r2.filter (fun doc => decide (dtTotalMicro doc.date ≤ dtTotalMicro t))
      | none => r2
    let r4 := match doc_type with
      | some t => r3.filter (fun doc => doc.type == t)
      | none => r3
    let r5 := match agency with
      | some a => if a == "" then r4 else r4.filter (fun doc => pyContains a doc.agency)
      | none => r4
    Except.ok r5

/-- Function `DocumentService.update_document` paired with
`DocumentRepository.update` (src/src/data_access/google_sheets.py): the
repository locates the first row whose id matches and replaces it whole.
The result pairs the outcome with the live store after the call, so that a
raised error leaves the store visible. -/
def replaceFirst : List Document → Document → List Document
  | [], _ => []
  | d :: rest, doc => if d.id == doc.id then doc :: rest else d :: replaceFirst rest doc

/-- Function `DocumentRepository.update`: `RecordNotFoundError` when no row matches,
otherwise replace the found row. -/
def repoUpdate (live : List Document) (doc : Document) : Except AppError (List Document) :=
  if live.any (fun d => d.id == doc.id) then Except.ok (replaceFirst live doc)
  else Except.error (AppError.recordNotFoundError ("找不到公文: " ++ doc.id))

/-- Function `DocumentService.update_document`: validates agency and subject
(Python falsiness of the empty string) before touching the repository. -/
def updateDocument (doc : Document) (live : List Document) :
    Except AppError Unit × List Document :=
  if doc.agency == "" || doc.subject == "" then
    (Except.error (AppError.validationError "機關單位和主旨為必填欄位"), live)
  else
    match repoUpdate live doc with
    | Except.ok live2 => (Except.ok (), live2)
    | Except.error e => (Except.error e, live)

/-- Function `DocumentRepository.get_by_id` restricted to the id column: the first
live document whose id matches. -/
def getById (live : List Document) (doc_id : String) : Option Document :=
  live.find? (fun d => d.id == doc_id)

/-- Removal of the first row whose id matches, as
`DocumentRepository.delete` removes the single found sheet row. -/
def removeFirst : List Document → String → List Document
  | [], _ => []
  | d :: rest, doc_id => if d.id == doc_id then rest else d :: removeFirst rest doc_id

/-- Function `DocumentRepository.delete`: `RecordNotFoundError` when no row matches,
otherwise delete the found row. -/
def repoDelete (live : List Document) (doc_id : String) : Except AppError (List Document) :=
  if live.any (fun d => d.id == doc_id) then Except.ok (removeFirst live doc_id)
  else Except.error (AppError.recordNotFoundError ("找不到公文: " ++ doc_id))

/-- One archive row of the deleted-records worksheet: the document's sheet
fields (written through `to_sheet_row`, here kept as the document itself)
plus `Deleted_At` and `Deleted_By`. -/
structure DeletedRow where
  document : Document
  deleted_at : DateTime
  deleted_by : String
deriving DecidableEq

/-- The two worksheets the soft-delete flow touches. -/
structure Stores where
  live : List Document
  deleted : List DeletedRow
deriving DecidableEq

/-- Function `DeletedDocumentRepository.move_to_deleted`
(src/src/data_access/google_sheets.py): appends the archive row and returns
`True`; any failure of the underlying append is re-raised as
`DatabaseConnectionError`.  `append_ok` stands for the outcome of the
store-level `append_row` call. -/
def moveToDeleted (append_ok : Bool) (document : Document) (deleted_by : String)
    (now : DateTime) (archive : List DeletedRow) :
    Except AppError (Bool × List DeletedRow) :=
  if append_ok then
    Except.ok (true, archive ++ [⟨document, now, deleted_by⟩])
  else
    Except.error (AppError.databaseConnectionError "移動到刪除紀錄失敗")

/-- Function `DocumentService.soft_delete` (src/src/services/document_service.py):
resolve, archive, then delete from live; a raised error is paired with the
stores as they stand at the raise site. -/
def softDelete (append_ok : Bool) (doc_id : String) (deleted_by : String)
    (now : DateTime) (s : Stores) : Except AppError Unit × Stores :=
  match getById s.live doc_id with
  | none => (Except.error (AppError.businessLogicError ("找不到公文: " ++ doc_id)), s)
  | some document =>
    match moveToDeleted append_ok document deleted_by now s.deleted with
    | Except.error e => (Except.error e, s)
    | Except.ok (success, archive2) =>
      if success then
        match repoDelete s.live doc_id with
        | Except.error e => (Except.error e, { s with deleted := archive2 })
        | Except.ok live2 => (Except.ok (), { live := live2, deleted := archive2 })
      else
        (Except.error (AppError.businessLogicError "移動到刪除紀錄失敗"),
          { s with deleted := archive2 })

/-- The `TrackingStatus` dataclass of src/src/services/tracking_service.py. -/
structure TrackingStatus where
  has_reply : Bool
  days_waiting : Int
  need_tracking : Bool
  reply_count : Nat
  latest_reply_date : Option DateTime := none
deriving DecidableEq

/-- Function `TrackingService.check_reply_status` of
src/src/services/tracking_service.py, with the repository's `get_all()`
result passed in as `docs` and `datetime.now()` as `now`.  The fold for the
latest reply date mirrors Python `max`, which keeps the earlier element on
ties. -/
def checkReplyStatus (docs : List Document) (now : DateTime) (doc_id : String)
    (doc_type : DocumentType) (doc_date : DateTime) : TrackingStatus :=
  if !(doc_type == DocumentType.OUTGOING || doc_type == DocumentType.LETTER) then
    { has_reply := false, days_waiting := 0, need_tracking := false, reply_count := 0 }
  else
    let replies := docs.filter (fun doc => doc.parent_id == some doc_id)
    let days_waiting := timedeltaDays now doc_date
    let need_tracking :=
      replies.length == 0 && decide (TRACKING_THRESHOLD_DAYS < days_waiting)
    let latest_reply_date := replies.foldl
      (fun acc reply => match acc with
        | none => some reply.date
        | some m => if dtTotalMicro m < dtTotalMicro reply.date then some reply.date else some m)
      none
    { has_reply := decide (0 < replies.length)
      days_waiting := days_waiting
      need_tracking := need_tracking
      reply_count := replies.length
      latest_reply_date := latest_reply_date }

/-- A sheet row as `Document.to_sheet_row` writes it and
`Document.from_sheet_row` reads it (src/src/models/document.py).  Cells are
the strings of the sheet, except that the injectively-encoded cells are kept
at value level: the `Date` cell keeps the calendar date that
`strftime('%Y-%m-%d')` renders (the time of day is not written), the two
ISO-8601 timestamp cells keep the `datetime` that `isoformat` renders with
`none` for the empty cell, and the two enum cells keep the enum whose literal
label is written. -/
structure SheetRow where
  id : String
  date : Date
  type : DocumentType
  agency : String
  subject : String
  parent_id : String
  drive_file_id : String
  created_at : Option DateTime
  created_by : String
  ocr_status : OCRStatus
  ocr_text : String
  ocr_date : Option DateTime
deriving DecidableEq

/-- Function `Document.to_sheet_row`: optional strings are written as `x or ''`,
optional timestamps as `t.isoformat() if t else ''`, the date as
`strftime('%Y-%m-%d')`. -/
def toSheetRow (doc : Document) : SheetRow :=
  { id := doc.id
    date := doc.date.date
    type := doc.type
    agency := doc.agency
    subject := doc.subject
    parent_id := doc.parent_id.getD ""
    drive_file_id := doc.drive_file_id.getD ""
    created_at := doc.created_at
    created_by := doc.created_by.getD ""
    ocr_status := doc.ocr_status
    ocr_text := doc.ocr_text.getD ""
    ocr_date := doc.ocr_date }

/-- Function `Document.from_sheet_row` on a full row:
`parent_id`/`drive_file_id` are read as `row.get(...) or None`, the date as
`strptime(..., '%Y-%m-%d')` (midnight), timestamps through `_parse_datetime`,
while `created_by` and `ocr_text` are read raw with no `or None`. -/
def fromSheetRow (row : SheetRow) : Document :=
  { id := row.id
    date := { date := row.date, hour := 0, minute := 0, second := 0, usec := 0 }
    type := row.type
    agency := row.agency
    subject := row.subject
    parent_id := if row.parent_id == "" then none else some row.parent_id
    drive_file_id := if row.drive_file_id == "" then none else some row.drive_file_id
    created_at := row.created_at
    created_by := some row.created_by
    ocr_status := row.ocr_status
    ocr_text := some row.ocr_text
    ocr_date := row.ocr_date }

instance {ε α : Type} [DecidableEq ε] [DecidableEq α] : DecidableEq (Except ε α) := fun x y =>
  match x, y with
  | Except.ok a, Except.ok b =>
    if h : a = b then isTrue (by rw [h]) else isFalse (by simp [h])
  | Except.error e, Except.error f =>
    if h : e = f then isTrue (by rw [h]) else isFalse (by simp [h])
  | Except.ok _, Except.error _ => isFalse (by simp)
  | Except.error _, Except.ok _ => isFalse (by simp)

/-- Convenience constructor for a `DateTime` with whole seconds. -/
def dtm (y m d hh mi ss : Nat) : DateTime :=
  { date := { year := y, month := m, day := d }, hour := hh, minute := mi,
    second := ss, usec := 0 }

def dt20240101 : DateTime := dtm 2024 1 1 0 0 0

def dt20240102 : DateTime := dtm 2024 1 2 0 0 0

/-- Cyclic data: document "A" claims parent "B". -/
def cycA : Document :=
  { id := "A", date := dt20240101, type := DocumentType.OUTGOING,
    agency := "甲機關", subject := "循環資料甲", parent_id := some "B" }

/-- Cyclic data: document "B" claims parent "A". -/
def cycB : Document :=
  { id := "B", date := dt20240101, type := DocumentType.INCOMING,
    agency := "乙機關", subject := "循環資料乙", parent_id := some "A" }

/-- The malformed store of the cycle-safety scenario: A(parent=B), B(parent=A). -/
def cycDocs : List Document := [cycA, cycB]

/-- Chain data: root document "A". -/
def rootA : Document :=
  { id := "A", date := dt20240101, type := DocumentType.OUTGOING,
    agency := "教育部", subject := "函詢案件一" }

/-- Chain data: "B" replies to "A". -/
def replyB : Document :=
  { id := "B", date := dt20240102, type := DocumentType.INCOMING,
    agency := "教育部", subject := "函復案件一", parent_id := some "A" }

/-- Chain data: "C" replies to "B". -/
def replyC : Document :=
  { id := "C", date := dt20240102, type := DocumentType.OUTGOING,
    agency := "教育部", subject := "再函詢案件一", parent_id := some "B" }

/-- The store of the thread-reconstruction scenario: A ← B ← C. -/
def chainDocs : List Document := [rootA, replyB, replyC]

/-- A document whose id carries the general prefix and the date 2024-01-01
while its date field says 2024-01-02: the allocator's date-field count and
the spec's id-prefix count disagree on it. -/
def genMismatchDoc : Document :=
  { id := ID_PREFIX_GENERAL ++ "20240101001", date := dt20240102,
    type := DocumentType.INCOMING, agency := "財政部", subject := "跨日流水號" }

/-- Two well-formed root documents dated 2024-01-01 whose ids embed their
own date, as the allocator itself would have produced them. -/
def wfRootDocs : List Document :=
  [{ id := ID_PREFIX_GENERAL ++ "20240101001", date := dt20240101,
     type := DocumentType.OUTGOING, agency := "財政部", subject := "流水號案件一" },
   { id := ID_PREFIX_GENERAL ++ "20240101002", date := dt20240101,
     type := DocumentType.OUTGOING, agency := "財政部", subject := "流水號案件二" }]

/-- A document whose id carries the reply prefix and contains "P" while its
parent_id field is empty: the allocator's parent-field count and the spec's
substring count disagree on it. -/
def replyMismatchDoc : Document :=
  { id := ID_PREFIX_REPLY ++ "01P", date := dt20240101,
    type := DocumentType.INCOMING, agency := "法務部", subject := "孤立回覆編號" }

/-- One well-formed reply to parent "P", as the allocator itself would have
produced it. -/
def wfReplyDocs : List Document :=
  [{ id := ID_PREFIX_REPLY ++ "01" ++ "P", date := dt20240101,
     type := DocumentType.OUTGOING, agency := "法務部", subject := "回覆案件一",
     parent_id := some "P" }]

/-- A valid document whose `created_by` is `None`; every other optional
field is chosen so that it survives the row conversion unchanged. -/
def noCreatorDoc : Document :=
  { id := "DOC-1", date := dt20240101, type := DocumentType.MEMO,
    agency := "內政部", subject := "未填建立者", created_by := none,
    ocr_text := some "辨識文字" }

/-- A document with every field populated in row-representable form. -/
def richDoc : Document :=
  { id := "DOC-2", date := dt20240101, type := DocumentType.LETTER,
    agency := "外交部", subject := "完整欄位範例", parent_id := some "DOC-1",
    drive_file_id := some "drive123", created_at := some (dtm 2024 1 1 8 30 0),
    created_by := some "alice", ocr_status := OCRStatus.COMPLETED,
    ocr_text := some "全文", ocr_date := some (dtm 2024 1 2 9 0 0) }

/-- A live document awaiting soft deletion. -/
def docX : Document :=
  { id := "X", date := dt20240101, type := DocumentType.OUTGOING,
    agency := "交通部", subject := "待刪除案件" }

/-- Stores holding exactly `docX` live and an empty archive. -/
def storesX : Stores := { live := [docX], deleted := [] }

/-- A small document set for the search scenarios. -/
def searchDocsEx : List Document :=
  [{ id := "S1", date := dt20240101, type := DocumentType.OUTGOING,
     agency := "財政部", subject := "營業稅申報" },
   { id := "S2", date := dt20240102, type := DocumentType.INCOMING,
     agency := "財政部", subject := "所得稅稽核" },
   { id := "S3", date := dt20240102, type := DocumentType.MEMO,
     agency := "教育部", subject := "教育補助" }]

/-- A document whose agency is empty while its subject is fine. -/
def noAgencyDoc : Document :=
  { id := "U1", date := dt20240101, type := DocumentType.MEMO,
    agency := "", subject := "主旨完整" }

/-- Helper: on the cyclic store A(parent=B), B(parent=A), the recursion of
`build_thread_recursive` exhausts every fuel budget from either node — the
Python original therefore never returns. -/
theorem cycThread_stuck (fuel : Nat) :
    (∀ lvl, buildThreadRec cycDocs fuel "A" lvl = none) ∧
    (∀ lvl, buildThreadRec cycDocs fuel "B" lvl = none) := by
  induction fuel with
  | zero => exact ⟨fun _ => rfl, fun _ => rfl⟩
  | succ n ih =>
    have eA : dictFind cycDocs "A" = some cycA := rfl
    have eB : dictFind cycDocs "B" = some cycB := rfl
    have fA : cycDocs.filter (fun d => d.parent_id == some "A") = [cycB] := rfl
    have fB : cycDocs.filter (fun d => d.parent_id == some "B") = [cycA] := rfl
    have idA : cycA.id = "A" := rfl
    have idB : cycB.id = "B" := rfl
    constructor
    · intro lvl
      have hB := ih.2 (lvl + 1)
      simp [buildThreadRec, eA, fB, List.foldlM, idB, hB]
    · intro lvl
      have hA := ih.1 (lvl + 1)
      simp [buildThreadRec, eB, fA, List.foldlM, idA, hA]

/-- Claim C1: the spec demands that the thread builder terminate on cyclic
parent links without revisiting the root.  The code has no cycle protection:
on the store A(parent=B), B(parent=A), the embedded recursion exhausts every
fuel budget, i.e. `get_conversation_thread("A")` recurses indefinitely
(until Python's recursion limit aborts it) instead of terminating. -/
theorem thread_cycle_divergence (fuel : Nat) :
    getConversationThread cycDocs fuel "A" = none :=
  (cycThread_stuck fuel).1 0

/-- Claim C8: on the store A ← B ← C the thread builder returns the
depth-first pre-order sequence [(A,0), (B,1), (C,2)], for every sufficient
recursion budget. -/
theorem thread_chain_preorder (n : Nat) :
    getConversationThread chainDocs (n + 3) "A" =
      some [(rootA, 0), (replyB, 1), (replyC, 2)] := rfl

/-- Claim C2, counterexample: for a store holding one document whose id
starts with `{GENERAL_PREFIX}20240101` but whose date field is 2024-01-02,
the allocator (which counts by date field and bare prefix) does not return
the id the claim's count formula (ids starting with prefix plus date)
prescribes. -/
theorem root_id_formula_cex :
    generateDocumentId [genMismatchDoc] dt20240101 false none ≠
      Except.ok (specNextRootId [genMismatchDoc] dt20240101) := by decide

/-- Claim C3, counterexample: for a store holding one document whose id
starts with `{REPLY_PREFIX}` and contains "P" but whose parent_id is empty,
the allocator (which counts by parent_id field) does not return the id the
claim's substring-count formula prescribes. -/
theorem reply_id_formula_cex :
    generateDocumentId [replyMismatchDoc] dt20240101 true (some "P") ≠
      Except.ok (specNextReplyId [replyMismatchDoc] "P") := by decide

/-- Claim C4, counterexample: a valid document with `created_by = None`
does not survive the row round trip — `to_sheet_row` writes `''` and
`from_sheet_row` reads the raw `''` back, not `None`. -/
theorem sheet_roundtrip_cex :
    fromSheetRow (toSheetRow noCreatorDoc) ≠ noCreatorDoc := by decide

/-- Claim C7, counterexample: the empty keyword has length < 2, yet
`search_documents` does not raise ValidationError — Python's `if keyword`
guard treats `''` as absent and the scan succeeds unfiltered. -/
theorem search_empty_keyword_cex :
    ("" : String).length < 2 ∧
    searchDocuments searchDocsEx (some "") none none none none =
      Except.ok searchDocsEx := by
  exact ⟨by decide, rfl⟩

/-- Claim C7, amended: a non-empty keyword shorter than 2 characters fails
with ValidationError; a keyword of length at least 2 filters by
case-sensitive substring match against the subject field only; the empty
keyword is treated as absent (no error, no filtering). -/
theorem search_keyword_semantics (docs : List Document) (k : String) :
    (k ≠ "" → k.length < 2 →
      searchDocuments docs (some k) none none none none =
        Except.error (AppError.validationError "關鍵字至少需要 2 個字")) ∧
    (2 ≤ k.length →
      searchDocuments docs (some k) none none none none =
        Except.ok (docs.filter (fun doc => pyContains k doc.subject))) ∧
    searchDocuments docs (some "") none none none none = Except.ok docs := by
  refine ⟨fun hne hlt => ?_, fun hge => ?_, ?_⟩
  · simp [searchDocuments, strTruthy, hne, hlt]
  · have hne : k ≠ "" := by
      intro h
      rw [h] at hge
      simp at hge
    simp [searchDocuments, strTruthy, hne, Nat.not_lt.mpr hge]
  · simp [searchDocuments, strTruthy]

/-- Claim C7, witness: the one-character keyword "稅" is rejected with
ValidationError. -/
theorem search_keyword_semantics_witness :
    searchDocuments searchDocsEx (some "稅") none none none none =
      Except.error (AppError.validationError "關鍵字至少需要 2 個字") :=
  (search_keyword_semantics searchDocsEx "稅").1 (by decide) (by decide)

/-- Claim C9: a document whose agency or subject is empty makes
`update_document` raise ValidationError before any repository call, leaving
the live store exactly as it was. -/
theorem update_document_validates (doc : Document) (live : List Document)
    (h : doc.agency = "" ∨ doc.subject = "") :
    updateDocument doc live =
      (Except.error (AppError.validationError "機關單位和主旨為必填欄位"), live) := by
  unfold updateDocument
  rcases h with h | h <;> simp [h]

/-- Claim C9, witness: updating a document with an empty agency against an
empty store errors and leaves the store empty. -/
theorem update_document_validates_witness :
    updateDocument noAgencyDoc [] =
      (Except.error (AppError.validationError "機關單位和主旨為必填欄位"), []) :=
  update_document_validates noAgencyDoc [] (Or.inl (by rfl))

/-- Helper: an element of `l` that is gone after `removeFirst l i` must be
the removed row, so its id is `i`. -/
theorem removeFirst_mem_id (l : List Document) (i : String) (d : Document)
    (hm : d ∈ l) (hn : d ∉ removeFirst l i) : d.id = i := by
  induction l with
  | nil => simp at hm
  | cons x rest ih =>
    by_cases hx : (x.id == i) = true
    · rw [show removeFirst (x :: rest) i = rest from by simp [removeFirst, hx]] at hn
      rcases List.mem_cons.mp hm with rfl | hr
      · simpa using hx
      · exact absurd hr hn
    · rw [show removeFirst (x :: rest) i = x :: removeFirst rest i from by
        simp [removeFirst, hx]] at hn
      rcases List.mem_cons.mp hm with rfl | hr
      · exact absurd (List.mem_cons_self d _) hn
      · exact ih hr (fun hin => hn (List.mem_cons_of_mem x hin))

/-- Helper: when the document id does not resolve, the soft-delete flow
raises BusinessLogicError with the stores untouched. -/
theorem softDelete_not_found (append_ok : Bool) (doc_id deleted_by : String)
    (now : DateTime) (s : Stores) (hg : getById s.live doc_id = none) :
    softDelete append_ok doc_id deleted_by now s =
      (Except.error (AppError.businessLogicError ("找不到公文: " ++ doc_id)), s) := by
  unfold softDelete
  rw [hg]

/-- Helper: when the archive append fails, the flow stops with the raised
DatabaseConnectionError and the stores untouched. -/
theorem softDelete_append_fail (doc_id deleted_by : String) (now : DateTime)
    (s : Stores) (document : Document)
    (hg : getById s.live doc_id = some document) :
    softDelete false doc_id deleted_by now s =
      (Except.error (AppError.databaseConnectionError "移動到刪除紀錄失敗"), s) := by
  unfold softDelete
  rw [hg]
  rfl

/-- Helper: on the success path the flow archives the resolved document and
removes its row from the live store. -/
theorem softDelete_success (doc_id deleted_by : String) (now : DateTime)
    (s : Stores) (document : Document)
    (hg : getById s.live doc_id = some document) :
    softDelete true doc_id deleted_by now s =
      (Except.ok (), ⟨removeFirst s.live doc_id,
        s.deleted ++ [⟨document, now, deleted_by⟩]⟩) := by
  have hg2 : s.live.find? (fun x => x.id == doc_id) = some document := hg
  have hpred0 := List.find?_some hg2
  have hmem : document ∈ s.live := List.mem_of_find?_eq_some hg2
  have hany : s.live.any (fun x => x.id == doc_id) = true :=
    List.any_eq_true.mpr ⟨document, hmem, hpred0⟩
  have hdel : repoDelete s.live doc_id = Except.ok (removeFirst s.live doc_id) := by
    simp [repoDelete, hany]
  unfold softDelete
  rw [hg]
  simp only [moveToDeleted, if_true, hdel]

/-- Claim C5: if the archive append of the soft-delete flow fails, the
delete from the live store does not run and both stores are unchanged; and
in every run, a document that disappears from the live store has a matching
archive record. -/
theorem soft_delete_archive_first :
    (∀ (doc_id deleted_by : String) (now : DateTime) (s : Stores),
      (softDelete false doc_id deleted_by now s).2 = s ∧
      ∃ e, (softDelete false doc_id deleted_by now s).1 = Except.error e) ∧
    (∀ (append_ok : Bool) (doc_id deleted_by : String) (now : DateTime)
       (s : Stores) (d : Document), d ∈ s.live →
      d ∉ (softDelete append_ok doc_id deleted_by now s).2.live →
      ∃ r ∈ (softDelete append_ok doc_id deleted_by now s).2.deleted,
        r.document.id = d.id) := by
  constructor
  · intro doc_id deleted_by now s
    cases hg : getById s.live doc_id with
    | none =>
      rw [softDelete_not_found false doc_id deleted_by now s hg]
      exact ⟨rfl, _, rfl⟩
    | some document =>
      rw [softDelete_append_fail doc_id deleted_by now s document hg]
      exact ⟨rfl, _, rfl⟩
  · intro append_ok doc_id deleted_by now s d hm hn
    cases hg : getById s.live doc_id with
    | none =>
      rw [softDelete_not_found append_ok doc_id deleted_by now s hg] at hn
      exact absurd hm hn
    | some document =>
      cases append_ok with
      | false =>
        rw [softDelete_append_fail doc_id deleted_by now s document hg] at hn
        exact absurd hm hn
      | true =>
        rw [softDelete_success doc_id deleted_by now s document hg] at hn ⊢
        dsimp only at hn ⊢
        have hg2 : s.live.find? (fun x => x.id == doc_id) = some document := hg
        have hpred0 := List.find?_some hg2
        have hid : d.id = doc_id := removeFirst_mem_id s.live doc_id d hm hn
        refine ⟨⟨document, now, deleted_by⟩, by simp, ?_⟩
        rw [hid]
        exact beq_iff_eq.mp hpred0

/-- Claim C5, witness: soft-deleting "X" from a store holding exactly that
document leaves an archive record carrying its id. -/
theorem soft_delete_archive_first_witness :
    ∃ r ∈ (softDelete true "X" "user1" dt20240102 storesX).2.deleted,
      r.document.id = docX.id :=
  soft_delete_archive_first.2 true "X" "user1" dt20240102 storesX docX
    (by decide) (by decide)

/-- Claim C6: for an OUTGOING document with no replies, tracking is not
needed at exactly the 7-day threshold, is needed one day past it, and in
general `need_tracking` holds exactly when the document has no replies and
the waiting time strictly exceeds the threshold. -/
theorem tracking_threshold_boundary (docs : List Document) (now dt7 dt8 : DateTime)
    (doc_id : String)
    (hno : docs.filter (fun d => d.parent_id == some doc_id) = [])
    (h7 : timedeltaDays now dt7 = TRACKING_THRESHOLD_DAYS)
    (h8 : timedeltaDays now dt8 = TRACKING_THRESHOLD_DAYS + 1) :
    (checkReplyStatus docs now doc_id DocumentType.OUTGOING dt7).need_tracking = false ∧
    (checkReplyStatus docs now doc_id DocumentType.OUTGOING dt8).need_tracking = true ∧
    ∀ (docs2 : List Document) (did2 : String) (dt2 : DateTime),
      (checkReplyStatus docs2 now did2 DocumentType.OUTGOING dt2).need_tracking = true ↔
        (docs2.filter (fun d => d.parent_id == some did2) = [] ∧
          TRACKING_THRESHOLD_DAYS < timedeltaDays now dt2) := by
  refine ⟨?_, ?_, ?_⟩
  · simp [checkReplyStatus, hno, h7, TRACKING_THRESHOLD_DAYS]
  · simp [checkReplyStatus, hno, h8, TRACKING_THRESHOLD_DAYS]
  · intro docs2 did2 dt2
    simp [checkReplyStatus, List.length_eq_zero]

/-- Claim C6, witness: with now = 2024-01-15 12:00, a document dated
2024-01-08 12:00 (7 days) is not flagged and one dated 2024-01-07 12:00
(8 days) is. -/
theorem tracking_threshold_boundary_witness :
    (checkReplyStatus [] (dtm 2024 1 15 12 0 0) "D" DocumentType.OUTGOING
      (dtm 2024 1 8 12 0 0)).need_tracking = false ∧
    (checkReplyStatus [] (dtm 2024 1 15 12 0 0) "D" DocumentType.OUTGOING
      (dtm 2024 1 7 12 0 0)).need_tracking = true := by
  have h := tracking_threshold_boundary [] (dtm 2024 1 15 12 0 0)
    (dtm 2024 1 8 12 0 0) (dtm 2024 1 7 12 0 0) "D" rfl (by decide) (by decide)
  exact ⟨h.1, h.2.1⟩

/-- Claim C10: a trackable document dated strictly in the future with no
replies gets a strictly negative `days_waiting` (no clamping to 0), with
`need_tracking` and `has_reply` both false. -/
theorem future_dated_tracking (docs : List Document) (now dt : DateTime)
    (doc_id : String) (doc_type : DocumentType)
    (htype : doc_type = DocumentType.OUTGOING ∨ doc_type = DocumentType.LETTER)
    (hfut : subMicro now dt < 0)
    (hno : docs.filter (fun d => d.parent_id == some doc_id) = []) :
    (checkReplyStatus docs now doc_id doc_type dt).days_waiting < 0 ∧
    (checkReplyStatus docs now doc_id doc_type dt).need_tracking = false ∧
    (checkReplyStatus docs now doc_id doc_type dt).has_reply = false := by
  have hdays : timedeltaDays now dt < 0 := by
    unfold timedeltaDays
    rw [Int.fdiv_eq_ediv _ (by norm_num)]
    exact Int.ediv_neg' hfut (by norm_num)
  have hnt : ¬ (TRACKING_THRESHOLD_DAYS < timedeltaDays now dt) := by
    unfold TRACKING_THRESHOLD_DAYS
    omega
  have htr : (doc_type == DocumentType.OUTGOING || doc_type == DocumentType.LETTER) = true := by
    rcases htype with h | h <;> simp [h]
  refine ⟨?_, ?_, ?_⟩ <;> simp [checkReplyStatus, htr, hno, hdays, hnt]

/-- Claim C10, witness: with now = 2024-01-01 and document date 2024-01-02,
an OUTGOING document with no replies waits a negative number of days. -/
theorem future_dated_tracking_witness :
    (checkReplyStatus [] dt20240101 "F" DocumentType.OUTGOING dt20240102).days_waiting < 0 ∧
    (checkReplyStatus [] dt20240101 "F" DocumentType.OUTGOING dt20240102).need_tracking = false ∧
    (checkReplyStatus [] dt20240101 "F" DocumentType.OUTGOING dt20240102).has_reply = false :=
  future_dated_tracking [] dt20240101 dt20240102 "F" DocumentType.OUTGOING
    (Or.inl rfl) (by decide) rfl

/-- Helper: `pyStartsWith` unfolded to the list-level prefix relation. -/
theorem pyStartsWith_iff (s p : String) : pyStartsWith s p = true ↔ p.data <+: s.data := by
  simp [pyStartsWith, List.isPrefixOf_iff_prefix]

/-- Helper: the characters of a formatted `%Y%m%d` date. -/
theorem fmt_data (t : DateTime) :
    (fmtYYYYMMDD t).data = num4 t.date.year ++ num2 t.date.month ++ num2 t.date.day := rfl

/-- Helper: a `%Y%m%d` date string always has eight characters. -/
theorem fmt_length (t : DateTime) : (fmtYYYYMMDD t).data.length = 8 := by
  rw [fmt_data]
  simp [num4, num2]

/-- Helper: pointwise agreement of the allocator's root-count predicate
(date field plus bare prefix) with the spec's id-prefix predicate, for a
document whose general-prefixed id embeds its own date. -/
theorem root_pred_eq (d : Document) (date : DateTime)
    (H : pyStartsWith d.id ID_PREFIX_GENERAL = true →
      pyStartsWith d.id (ID_PREFIX_GENERAL ++ fmtYYYYMMDD d.date) = true) :
    (fmtYYYYMMDD d.date == fmtYYYYMMDD date && pyStartsWith d.id ID_PREFIX_GENERAL) =
      pyStartsWith d.id (ID_PREFIX_GENERAL ++ fmtYYYYMMDD date) := by
  cases hsp : pyStartsWith d.id (ID_PREFIX_GENERAL ++ fmtYYYYMMDD date) with
  | true =>
    have hpre : (ID_PREFIX_GENERAL ++ fmtYYYYMMDD date).data <+: d.id.data :=
      (pyStartsWith_iff _ _).mp hsp
    have hgen : ID_PREFIX_GENERAL.data <+: d.id.data := by
      refine List.IsPrefix.trans ?_ hpre
      rw [String.data_append]
      exact List.prefix_append _ _
    have hgenB : pyStartsWith d.id ID_PREFIX_GENERAL = true :=
      (pyStartsWith_iff _ _).mpr hgen
    have hown : (ID_PREFIX_GENERAL ++ fmtYYYYMMDD d.date).data <+: d.id.data :=
      (pyStartsWith_iff _ _).mp (H hgenB)
    have hlen : (ID_PREFIX_GENERAL ++ fmtYYYYMMDD d.date).data.length =
        (ID_PREFIX_GENERAL ++ fmtYYYYMMDD date).data.length := by
      rw [String.data_append, String.data_append, List.length_append,
        List.length_append, fmt_length, fmt_length]
    have heq : (ID_PREFIX_GENERAL ++ fmtYYYYMMDD d.date).data =
        (ID_PREFIX_GENERAL ++ fmtYYYYMMDD date).data :=
      (List.prefix_of_prefix_length_le hown hpre (le_of_eq hlen)).eq_of_length hlen
    have hfmt : fmtYYYYMMDD d.date = fmtYYYYMMDD date := by
      apply String.ext
      rw [String.data_append, String.data_append] at heq
      simpa using heq
    simp [hfmt, hgenB]
  | false =>
    cases hgen : pyStartsWith d.id ID_PREFIX_GENERAL with
    | false => simp
    | true =>
      by_cases hfmt : fmtYYYYMMDD d.date = fmtYYYYMMDD date
      · exfalso
        have hx := H hgen
        rw [hfmt, hsp] at hx
        exact Bool.false_ne_true hx
      · simp [beq_iff_eq, hfmt]

/-- Claim C2, amended: on stores whose general-prefixed ids embed the
document's own `%Y%m%d` date — which is what the allocator itself writes —
the next root id is `{GENERAL_PREFIX}{YYYYMMDD}` followed by `1 + count of
ids starting with {GENERAL_PREFIX}{YYYYMMDD}`, zero-padded to 3 digits,
exactly the claim's formula. -/
theorem generate_root_id_wellformed (docs : List Document) (date : DateTime)
    (H : ∀ d ∈ docs, pyStartsWith d.id ID_PREFIX_GENERAL = true →
      pyStartsWith d.id (ID_PREFIX_GENERAL ++ fmtYYYYMMDD d.date) = true) :
    generateDocumentId docs date false none = Except.ok (specNextRootId docs date) := by
  unfold generateDocumentId specNextRootId
  have hf : docs.filter (fun doc =>
      fmtYYYYMMDD doc.date == fmtYYYYMMDD date && pyStartsWith doc.id ID_PREFIX_GENERAL) =
      docs.filter (fun doc => pyStartsWith doc.id (ID_PREFIX_GENERAL ++ fmtYYYYMMDD date)) :=
    List.filter_congr (fun d hd => root_pred_eq d date (H d hd))
  simp only [Bool.false_and]
  rw [if_neg Bool.false_ne_true, if_neg Bool.false_ne_true, hf, Nat.add_comm 1]

/-- Claim C2, witness: with the two well-formed root documents dated
2024-01-01 (N = 2), the next id for that date carries sequence 003. -/
theorem generate_root_id_wellformed_witness :
    generateDocumentId wfRootDocs dt20240101 false none =
      Except.ok (ID_PREFIX_GENERAL ++ "20240101" ++ "003") := by
  rw [generate_root_id_wellformed wfRootDocs dt20240101 (by decide)]
  rfl

/-- Helper: pointwise agreement of the allocator's reply-count predicate
(parent field plus reply prefix) with the spec's substring predicate, for a
document on which the two markers coincide. -/
theorem reply_pred_eq (d : Document) (p : String)
    (H : (pyStartsWith d.id ID_PREFIX_REPLY && pyContains p d.id) = (d.parent_id == some p)) :
    (d.parent_id == some p && pyStartsWith d.id ID_PREFIX_REPLY) =
      (pyStartsWith d.id ID_PREFIX_REPLY && pyContains p d.id) := by
  rw [← H]
  cases pyStartsWith d.id ID_PREFIX_REPLY <;> cases pyContains p d.id <;> rfl

/-- Claim C3, amended: on stores where an id starting with `{REPLY_PREFIX}`
and containing `parent_id` marks exactly the documents whose parent field is
`parent_id` — which is what the allocator itself writes — the next reply id
is `{REPLY_PREFIX}` followed by `1 + count of ids starting with
{REPLY_PREFIX} and containing parent_id`, zero-padded to 2 digits, then
`parent_id`, exactly the claim's formula. -/
theorem generate_reply_id_wellformed (docs : List Document) (date : DateTime)
    (p : String) (hp : p ≠ "")
    (H : ∀ d ∈ docs,
      (pyStartsWith d.id ID_PREFIX_REPLY && pyContains p d.id) = (d.parent_id == some p)) :
    generateDocumentId docs date true (some p) = Except.ok (specNextReplyId docs p) := by
  unfold generateDocumentId specNextReplyId
  have ht : strTruthy (some p) = true := by simp [strTruthy, hp]
  have hf : docs.filter (fun doc =>
      doc.parent_id == some p && pyStartsWith doc.id ID_PREFIX_REPLY) =
      docs.filter (fun doc => pyStartsWith doc.id ID_PREFIX_REPLY && pyContains p doc.id) :=
    List.filter_congr (fun d hd => reply_pred_eq d p (H d hd))
  simp only [ht, Bool.not_true, Bool.and_false]
  rw [if_pos trivial, hf, Nat.add_comm 1, if_neg Bool.false_ne_true]
  rfl

/-- Claim C3, witness: with one existing well-formed reply to parent "P",
the next reply id for "P" carries sequence 02. -/
theorem generate_reply_id_wellformed_witness :
    generateDocumentId wfReplyDocs dt20240102 true (some "P") =
      Except.ok (ID_PREFIX_REPLY ++ "02" ++ "P") := by
  rw [generate_reply_id_wellformed wfReplyDocs dt20240102 "P" (by decide) (by decide)]
  rfl

/-- Claim C4, amended: the row round trip reproduces the document exactly
for every document whose date carries no time of day (the `%Y-%m-%d` cell
drops it), whose `parent_id` and `drive_file_id` are not the empty string
(read back as `None`), and whose `created_by` and `ocr_text` are not `None`
(read back as `''`). -/
theorem sheet_roundtrip (doc : Document)
    (hh : doc.date.hour = 0) (hmi : doc.date.minute = 0)
    (hsec : doc.date.second = 0) (hus : doc.date.usec = 0)
    (hp : doc.parent_id ≠ some "") (hd : doc.drive_file_id ≠ some "")
    (hc : doc.created_by ≠ none) (ho : doc.ocr_text ≠ none) :
    fromSheetRow (toSheetRow doc) = doc := by
  obtain ⟨i, dt, ty, ag, su, pid, dfid, cat, cby, ocs, oct, ocd⟩ := doc
  obtain ⟨dd, h2, mi2, se2, us2⟩ := dt
  simp only at hh hmi hsec hus hp hd hc ho
  subst hh hmi hsec hus
  have e1 : (if pid.getD "" = "" then none else some (pid.getD "")) = pid := by
    cases pid with
    | none => simp
    | some s =>
      have hs : s ≠ "" := fun hempty => hp (by rw [hempty])
      simp [hs]
  have e2 : (if dfid.getD "" = "" then none else some (dfid.getD "")) = dfid := by
    cases dfid with
    | none => simp
    | some s =>
      have hs : s ≠ "" := fun hempty => hd (by rw [hempty])
      simp [hs]
  have e3 : some (cby.getD "") = cby := by
    cases cby with
    | none => exact absurd rfl hc
    | some s => rfl
  have e4 : some (oct.getD "") = oct := by
    cases oct with
    | none => exact absurd rfl ho
    | some s => rfl
  simp [toSheetRow, fromSheetRow, e1, e2, e3, e4]

/-- Claim C4, witness: the fully-populated document survives the round
trip unchanged. -/
theorem sheet_roundtrip_witness : fromSheetRow (toSheetRow richDoc) = richDoc :=
  sheet_roundtrip richDoc rfl rfl rfl rfl (by decide) (by decide) (by decide) (by decide)

end GovDoc
